import Mathlib

/-!
Verification development for the gogram MTProto transport & session engine.

Shallow embedding of the relevant parts of the source:
  * `src/unnamed/part_000` (package `gogram`, the MTProto core: `makeRequest`,
    `startReadingResponses`, `readMsg`, `processResponse`, `Disconnect`,
    `Terminate`, `ImportRawAuth`, `ImportAuth`, `ExportAuth`)
  * `src/telegram/client.go` (package `telegram`: `BorrowExportedSenders`,
    `CreateExportedSender`, `ExportSession`, `ImportSession`)

Go strings are modelled as Lean `String`, Go byte slices as `List Nat`,
Go maps/channel registries as `List Nat` key lists, and Go int32/int64
counters as `Nat`/`Int` (no overflow is exercised by any statement below).
Concurrency (goroutines inside `BorrowExportedSenders`) is modelled as the
equivalent sequential loop; channel sends are modelled as explicit event
lists.
-/

/-! ### String helpers (Go `strings.Contains` / prefix matching) -/

/-- Bool-valued infix test on character lists: true iff `sub` occurs
contiguously inside `s`.  This is Go's `strings.Contains` on the
underlying bytes. -/
def listHasInfix (s sub : List Char) : Bool :=
  match s with
  | [] => sub.isEmpty
  | _ :: rest => sub.isPrefixOf s || listHasInfix rest sub

/-- Go `strings.Contains s sub`. -/
def strContains (s sub : String) : Bool := listHasInfix s.data sub.data

/-- Go `strings.HasPrefix s sub` (used only to state the spec's "prefix"
wording; the source itself uses `strings.Contains`). -/
def strStartsWith (s sub : String) : Bool := sub.data.isPrefixOf s.data

/-! ### makeRequest (src/unnamed/part_000 lines 279-309)

`makeRequest` is driven by a script of externally-observable events: each
`sendPacket` call either fails with an error string (write failure) or
eventually yields one response object on the registered response channel.
Each `sendPacket` call consumes a fresh message id (`msgId`, incremented on
every retry, mirroring the fresh `msg_id` generated inside `sendPacket`).
The result records the reconnects triggered, the floodwait sleeps
performed, the msg ids of all send attempts, and the msg ids of the send
attempts that reached the wire (were delivered). -/

/-- A response object read from the response channel in `makeRequest`:
`*objects.RpcError` (with the floodwait seconds the source reads from
`realErr.AdditionalInfo.(int)`), the `*errorSessionConfigsChanged`
sentinel, or a successful result object. -/
inductive RpcResp where
  | rpcError (message : String) (seconds : Nat)
  | sessionConfigsChanged
  | ok (value : Nat)
deriving DecidableEq

/-- One `sendPacket` interaction: either the write fails with the given Go
error string (and, if a reconnect is then attempted, whether `Reconnect`
succeeds), or the request is written and the given response later arrives
on its channel. -/
inductive Step where
  | sendFail (errMsg : String) (reconnectOk : Bool)
  | reply (r : RpcResp)
deriving DecidableEq

/-- Errors surfaced to the caller of `makeRequest`. -/
inductive ReqErr where
  | scriptExhausted
  | reconnectFailed (msg : String)
  | sendErr (msg : String)
  | rpc (message : String)
deriving DecidableEq

/-- Outcome of `makeRequest`. -/
inductive MOutcome where
  | success (v : Nat)
  | failure (e : ReqErr)
deriving DecidableEq

/-- Observable result of one `makeRequest` call: final outcome, number of
reconnects triggered, floodwait sleeps (seconds, most recent first), msg
ids consumed by `sendPacket` attempts, and msg ids of attempts whose write
reached the server. -/
structure ReqResult where
  result : MOutcome
  reconnects : Nat
  sleeps : List Nat
  attempted : List Nat
  delivered : List Nat
deriving DecidableEq

/-- The write-error test in `makeRequest` (src/unnamed/part_000 line 282):
`strings.Contains(err.Error(), "use of closed network connection") ||
strings.Contains(err.Error(), "transport is closed")`. -/
def brokenPipe (msg : String) : Bool :=
  strContains msg "use of closed network connection" ||
    strContains msg "transport is closed"

/-- The floodwait test in `makeRequest` (src/unnamed/part_000 line 297):
`strings.Contains(realErr.Message, "FLOOD_WAIT_")`.  Note: a containment
test, not a prefix test. -/
def floodWait (msg : String) : Bool := strContains msg "FLOOD_WAIT_"

/-- `makeRequest` (src/unnamed/part_000 lines 279-309), driven by a script.
On a broken-pipe write error it reconnects and recursively retries; on an
`RpcError` containing `FLOOD_WAIT_` it sleeps the advertised seconds and
recursively retries; on the session-configs-changed sentinel it recursively
retries; every other `RpcError` is surfaced; otherwise the response value
is returned.  Each recursive retry consumes the next fresh msg id. -/
def makeRequest : List Step → Nat → ReqResult
  | [], _ => ⟨.failure .scriptExhausted, 0, [], [], []⟩
  | .sendFail msg rok :: rest, msgId =>
    if brokenPipe msg then
      if rok then
        let r := makeRequest rest (msgId + 1)
        { r with reconnects := r.reconnects + 1, attempted := msgId :: r.attempted }
      else ⟨.failure (.reconnectFailed msg), 1, [], [msgId], []⟩
    else ⟨.failure (.sendErr msg), 0, [], [msgId], []⟩
  | .reply resp :: rest, msgId =>
    match resp with
    | .rpcError m secs =>
      if floodWait m then
        let r := makeRequest rest (msgId + 1)
        { r with sleeps := secs :: r.sleeps, attempted := msgId :: r.attempted,
                 delivered := msgId :: r.delivered }
      else ⟨.failure (.rpc m), 0, [], [msgId], [msgId]⟩
    | .sessionConfigsChanged =>
      let r := makeRequest rest (msgId + 1)
      { r with attempted := msgId :: r.attempted, delivered := msgId :: r.delivered }
    | .ok v => ⟨.success v, 0, [], [msgId], [msgId]⟩

/-! ### BadServerSalt handling (src/unnamed/part_000 lines 475-491) -/

/-- The session-engine state touched by the `*objects.BadServerSalt` branch
of `processResponse`: the salt, the memory-session flag, the last persisted
salt, a reconnect counter, and the keys of the pending response channels. -/
structure SaltState where
  serverSalt : Int
  memorySession : Bool
  persistedSalt : Option Int
  reconnects : Nat
  pendingKeys : List Nat
deriving DecidableEq

/-- Outcome of the BadServerSalt branch: either the updated state together
with the list of response-channel keys that were sent the
`errorSessionConfigsChanged` sentinel (in iteration order, one send per
key), or the error returned when persisting the session fails. -/
inductive SaltOutcome where
  | ok (st : SaltState) (sentinelDeliveries : List Nat)
  | saveError (msg : String)
deriving DecidableEq

/-- The `*objects.BadServerSalt` branch of `processResponse`
(src/unnamed/part_000 lines 475-491): set `serverSalt` to the new salt;
unless running a memory session, persist (an error aborts the branch);
trigger `Reconnect`; then send the `errorSessionConfigsChanged` sentinel to
every pending response channel, once per key. -/
def processBadServerSalt (st : SaltState) (newSalt : Int) (saveErr : Option String) :
    SaltOutcome :=
  let st1 : SaltState := { st with serverSalt := newSalt }
  if st1.memorySession then
    .ok { st1 with reconnects := st1.reconnects + 1 } st1.pendingKeys
  else
    match saveErr with
    | some e => .saveError ("saving session: " ++ e)
    | none =>
      let st2 : SaltState := { st1 with persistedSalt := some newSalt }
      .ok { st2 with reconnects := st2.reconnects + 1 } st2.pendingKeys

/-! ### Receive loop error classification
(src/unnamed/part_000 lines 365-451) -/

/-- Go error values that can reach the `switch err` in
`startReadingResponses`: a raw `transport.ErrCode`, the wrapped
`*ErrResponseCode` produced by `readMsg`, `io.EOF`, `context.Canceled`, or
any other error. -/
inductive LoopErr where
  | transportErrCode (code : Nat)
  | errResponseCode (code : Nat)
  | eofErr
  | canceledErr
  | otherErr (msg : String)
deriving DecidableEq

/-- How `readMsg` (src/unnamed/part_000 lines 419-434) surfaces an error
from `transport.ReadMsg()`: a `transport.ErrCode` is wrapped into
`&ErrResponseCode{Code: int(e)}`; `io.EOF` and `context.Canceled` pass
through; anything else is wrapped with a "reading message" prefix string. -/
def readMsgTranslateErr : LoopErr → LoopErr
  | .transportErrCode c => .errResponseCode c
  | .errResponseCode c => .errResponseCode c
  | .eofErr => .eofErr
  | .canceledErr => .canceledErr
  | .otherErr m => .otherErr ("reading message: " ++ m)

/-- The Go type assertion `err.(transport.ErrCode)` in the `default` branch
of `startReadingResponses` (src/unnamed/part_000 line 391): succeeds only
on a value whose dynamic type is exactly `transport.ErrCode`. -/
def asTransportErrCode : LoopErr → Option Nat
  | .transportErrCode c => some c
  | _ => none

/-- Whether the `default` branch of `startReadingResponses`
(src/unnamed/part_000 lines 390-400) invokes `m.makeAuthKey()` for the
given error: it does so exactly when the `err.(transport.ErrCode)` type
assertion succeeds and the code equals 4294966892 (two's-complement -404). -/
def runsMakeAuthKey (e : LoopErr) : Bool :=
  match asTransportErrCode e with
  | some c => c == 4294966892
  | none => false

/-! ### Service-mode routing in readMsg (src/unnamed/part_000 lines 436-450) -/

/-- Where `readMsg` routes a successfully read message. -/
inductive RouteTarget where
  | toServiceChannel (obj : Nat)
  | toProcessResponse (raw : Nat)
  | parseErrorReturn (e : String)
deriving DecidableEq

/-- The routing step of `readMsg` after a successful `transport.ReadMsg()`
(src/unnamed/part_000 lines 436-450): when `serviceModeActivated` is set,
the decoded object (given here as `decoded`; `none` models a
`DecodeUnknownObject` failure) is sent to `serviceChannel` and the function
returns without touching `processResponse`; otherwise the raw message goes
to `processResponse`. -/
def readMsgRoute (serviceModeActivated : Bool) (raw : Nat) (decoded : Option Nat) :
    RouteTarget :=
  if serviceModeActivated then
    match decoded with
    | none => .parseErrorReturn "parsing object"
    | some o => .toServiceChannel o
  else .toProcessResponse raw

/-! ### Acknowledgement of odd-seq-no messages
(src/unnamed/part_000 lines 535-540) -/

/-- Effect of the acknowledgement step at the end of `processResponse`:
the `MsgsAck` payloads enqueued (each a list of msg ids) and whether the
receive loop blocked waiting for a response to the acknowledgement. -/
structure AckEffect where
  acks : List (List Nat)
  awaitedResponse : Bool
deriving DecidableEq

/-- Modelled from the spec: the body of `MakeRequest`/`sendPacket` for
acknowledgements is not under src/; the spec's `send_oneway` ("like `send`
but no mailbox is registered; used for pings and acknowledgements",
"Acknowledgements ... are sent best-effort ...; the client does not wait
for them") sends the `MsgsAck` and registers no mailbox, so the caller
never blocks on a response. -/
def sendOnewayAck (msgIds : List Nat) : AckEffect := ⟨[msgIds], false⟩

/-- The final acknowledgement step of `processResponse`
(src/unnamed/part_000 lines 535-540): when `(msg.GetSeqNo() & 1) != 0`, a
`MsgsAck` carrying exactly `[msg.GetMsgID()]` is sent; otherwise nothing
happens. -/
def processResponseAckStep (seqNo msgId : Nat) : AckEffect :=
  if seqNo &&& 1 ≠ 0 then sendOnewayAck [msgId] else ⟨[], false⟩

/-! ### Disconnect / Terminate (src/unnamed/part_000 lines 323-336) -/

/-- Connection-lifecycle state: the `isConnected` flag, whether the
background routines are running (`stopRoutines` cancels their context),
and whether the response-channel registry has been closed
(`responseChannels.Close()`). -/
structure ConnState where
  isConnected : Bool
  routinesActive : Bool
  mailboxesClosed : Bool
deriving DecidableEq

/-- What a caller blocked on a pending response mailbox observes. -/
inductive MailboxRead where
  | terminatedError
  | stillPending
deriving DecidableEq

/-- `Disconnect` (src/unnamed/part_000 lines 323-328): cancels the
background routines and clears `isConnected`; the `responseChannels.Close()`
call is commented out, so pending mailboxes stay open. -/
def disconnect (s : ConnState) : ConnState :=
  { s with routinesActive := false, isConnected := false }

/-- `Terminate` (src/unnamed/part_000 lines 330-336): cancels the
background routines, closes every response channel via
`responseChannels.Close()`, and clears `isConnected`. -/
def terminate (s : ConnState) : ConnState :=
  { s with routinesActive := false, mailboxesClosed := true, isConnected := false }

/-- Modelled from the spec: `utils.SyncIntObjectChan.Close` is not under
src/; per the spec ("Terminate close all mailboxes with a Terminated
error"), a caller awaiting a pending mailbox observes a terminated error
once the registry is closed and otherwise keeps waiting. -/
def awaitPending (s : ConnState) : MailboxRead :=
  if s.mailboxesClosed then .terminatedError else .stillPending

/-! ### String sessions, ExportSession / ImportAuth / ImportRawAuth
(src/telegram/client.go lines 529-533, src/unnamed/part_000 lines 136-161) -/

/-- The record carried by a string session, as pinned by the call sites in
src/: `session.NewStringSession(key, hash, dc, hostname, appID)` on encode
(src/telegram/client.go lines 101 and 532) and the five decoded values
`AuthKey, AuthKeyHash, dc (discarded), IpAddr, AppID` on decode
(src/unnamed/part_000 line 150).  The server salt is not part of it. -/
structure StringSessionRec where
  key : List Nat
  hash : List Nat
  dc : Nat
  hostname : List Nat
  appID : Nat
deriving DecidableEq

/-- Modelled from the spec: the body of `session.StringSession.Encode` is
not under src/.  Per the spec it is "a base-64-like encoding of the same
record with a leading version byte" that "is deterministic given the
inputs"; modelled as a length-prefixed flat encoding with leading version
token 1. -/
def stringSessionEncode (r : StringSessionRec) : List Nat :=
  1 :: r.key.length ::
    (r.key ++ r.hash.length ::
      (r.hash ++ r.dc :: r.hostname.length :: (r.hostname ++ [r.appID])))

/-- Reads exactly `n` tokens, returning them and the remainder. -/
def readN : Nat → List Nat → Option (List Nat × List Nat)
  | 0, l => some ([], l)
  | _ + 1, [] => none
  | n + 1, x :: l =>
    match readN n l with
    | some (xs, rest) => some (x :: xs, rest)
    | none => none

/-- Modelled from the spec: the body of `session.StringSession.Decode` is
not under src/.  Inverse of `stringSessionEncode`; "decoding failures are
explicit errors" (`none`). -/
def stringSessionDecode (l : List Nat) : Option StringSessionRec :=
  match l with
  | v :: klen :: r1 =>
    if v = 1 then
      match readN klen r1 with
      | some (key, hlen :: r2) =>
        match readN hlen r2 with
        | some (hash, dc :: hostlen :: r3) =>
          match readN hostlen r3 with
          | some (host, [app]) => some ⟨key, hash, dc, host, app⟩
          | _ => none
        | _ => none
      | _ => none
    else none
  | _ => none

/-- The MTProto auth fields mutated by `ImportRawAuth`/`ImportAuth`
(src/unnamed/part_000 lines 140-161), plus the server salt, which
neither of the two imports touches. -/
structure AuthFields where
  authKey : List Nat
  authKeyHash : List Nat
  addr : List Nat
  appID : Nat
  serverSalt : Nat
deriving DecidableEq

/-- A full session record in the sense of the spec's round-trip property
("key, hash, salt, hostname, app id"). -/
structure FullSession where
  key : List Nat
  hash : List Nat
  salt : Nat
  hostname : List Nat
  appID : Nat
deriving DecidableEq

/-- The session view of the auth fields. -/
def sessionOfAuth (m : AuthFields) : FullSession :=
  ⟨m.authKey, m.authKeyHash, m.serverSalt, m.addr, m.appID⟩

/-- The auth fields of a full session. -/
def authOfSession (s : FullSession) : AuthFields :=
  ⟨s.key, s.hash, s.hostname, s.appID, s.salt⟩

/-- `ExportSession` (src/telegram/client.go lines 529-533): encodes
`NewStringSession(authKey, authKeyHash, dcId, Addr, appID)`.  The salt is
not passed to the encoder. -/
def exportSession (m : AuthFields) (dcId : Nat) : List Nat :=
  stringSessionEncode ⟨m.authKey, m.authKeyHash, dcId, m.addr, m.appID⟩

/-- `ImportRawAuth` (src/unnamed/part_000 lines 140-144): overwrite the
auth fields, attempt `Reconnect(false)` (its outcome given as
`reconnectErr`), and return `(err != nil, err)`. -/
def importRawAuth (m : AuthFields) (key hash addr : List Nat) (appID : Nat)
    (reconnectErr : Option String) : AuthFields × Bool × Option String :=
  ({ m with authKey := key, authKeyHash := hash, addr := addr, appID := appID },
   reconnectErr.isSome, reconnectErr)

/-- `ImportAuth` (src/unnamed/part_000 lines 146-161): decode the string
session (a failure returns `(false, err)`); set `authKey`, `authKeyHash`,
`Addr` and `appID` from the decoded record, discarding the dc id; unless
running a memory session, persist (a failure, given as `saveErr`, returns
`(false, err)`); finally return `(true, nil)`.  The server salt is never
written. -/
def importAuth (m : AuthFields) (encoded : List Nat) (memorySession : Bool)
    (saveErr : Option String) : AuthFields × Bool × Option String :=
  match stringSessionDecode encoded with
  | none => (m, false, some "decoding string session")
  | some r =>
    let m2 : AuthFields :=
      { m with authKey := r.key, authKeyHash := r.hash, addr := r.hostname,
               appID := r.appID }
    if memorySession then (m2, true, none)
    else
      match saveErr with
      | some e => (m2, false, some ("saving session: " ++ e))
      | none => (m2, true, none)

/-! ### BorrowExportedSenders (src/telegram/client.go lines 422-482) -/

/-- The exported-sender pool for one dc id: the cached sender handles and a
supply counter for fresh handles (every handle ever created is below
`nextHandle`). -/
structure SenderPool where
  senders : List Nat
  nextHandle : Nat
deriving DecidableEq

/-- Result of `BorrowExportedSenders`: the returned senders and the updated
pool, or the Go error. -/
inductive BorrowResult where
  | ok (returned : List Nat) (pool : SenderPool)
  | err (msg : String)
deriving DecidableEq

/-- `k` successive successful `CreateExportedSender` calls, each yielding a
fresh distinct handle (creation is modelled as succeeding; the
authorization-invalid retry of lines 448-453 is therefore absorbed). -/
def createExportedSenders (nextHandle k : Nat) : List Nat :=
  (List.range k).map (fun i => nextHandle + i)

/-- `BorrowExportedSenders` (src/telegram/client.go lines 422-482) for one
dc id, with the variadic `count ...int` argument as a list.  `countInt`
defaults to 1; `countInt < 1` and `countInt > 10` are rejected with errors.
An empty pool is filled with `countInt` freshly created senders (the
source creates them in concurrent goroutines; modelled sequentially); a
short pool is returned whole and topped up with fresh senders; otherwise
the first `countInt` cached senders are returned. -/
def borrowExportedSenders (p : SenderPool) (count : List Nat) : BorrowResult :=
  let countInt := match count with | [] => 1 | c :: _ => c
  if countInt < 1 then .err "count must be greater than 0"
  else if countInt > 10 then .err "count must be less than 10"
  else if p.senders.isEmpty then
    let created := createExportedSenders p.nextHandle countInt
    .ok created ⟨created, p.nextHandle + countInt⟩
  else if p.senders.length < countInt then
    let created := createExportedSenders p.nextHandle (countInt - p.senders.length)
    .ok (p.senders ++ created)
      ⟨p.senders ++ created, p.nextHandle + (countInt - p.senders.length)⟩
  else
    .ok (p.senders.take countInt) p

/-! ## Helper lemmas -/

/-- Reading back exactly the tokens just written returns them and the rest. -/
theorem readN_append (xs rest : List Nat) :
    readN xs.length (xs ++ rest) = some (xs, rest) := by
  induction xs with
  | nil => rfl
  | cons x xs ih => simp [readN, ih]

/-- The string-session codec round-trips on its record. -/
theorem stringSessionDecode_encode (r : StringSessionRec) :
    stringSessionDecode (stringSessionEncode r) = some r := by
  cases r with
  | mk key hash dc host app =>
    simp [stringSessionEncode, stringSessionDecode, readN_append]

/-- Freshly created sender handles are pairwise distinct. -/
theorem createExportedSenders_nodup (h k : Nat) :
    (createExportedSenders h k).Nodup :=
  (List.nodup_range k).map (fun a b hab => by omega)

/-- Every freshly created sender handle is at least the supply counter. -/
theorem createExportedSenders_ge (h k : Nat) :
    ∀ x ∈ createExportedSenders h k, h ≤ x := by
  intro x hx
  simp only [createExportedSenders, List.mem_map, List.mem_range] at hx
  obtain ⟨i, _, rfl⟩ := hx
  omega

/-! ## Claim theorems -/

/-- C1 (counterexample): `BorrowExportedSenders` does not clamp `n` to 10;
at `n = 11` it returns the error "count must be less than 10" instead of
`min 11 10 = 10` senders. -/
theorem borrowExportedSenders_eleven_rejected :
    borrowExportedSenders ⟨[], 0⟩ [11] =
      BorrowResult.err "count must be less than 10" := by decide

/-- C1 (amended): for every pool whose cached senders are distinct and
below the fresh-handle supply, and every `n` with `1 ≤ n ≤ 10`,
`BorrowExportedSenders` returns exactly `n` distinct sender handles
(creation modelled as succeeding); `n > 10` is rejected, not clamped. -/
theorem borrowExportedSenders_returns_distinct :
    ∀ (p : SenderPool) (n : Nat),
    p.senders.Nodup → (∀ x ∈ p.senders, x < p.nextHandle) →
    1 ≤ n → n ≤ 10 →
    ∃ l p2, borrowExportedSenders p [n] = BorrowResult.ok l p2
      ∧ l.length = n ∧ l.Nodup := by
  intro p n hnd hlt h1 h10
  have hn1 : ¬ (n < 1) := by omega
  have hn10 : ¬ (n > 10) := by omega
  by_cases he : p.senders.isEmpty
  · exact ⟨createExportedSenders p.nextHandle n,
      ⟨createExportedSenders p.nextHandle n, p.nextHandle + n⟩,
      by simp [borrowExportedSenders, hn1, hn10, he],
      by simp [createExportedSenders],
      createExportedSenders_nodup p.nextHandle n⟩
  · by_cases hshort : p.senders.length < n
    · refine ⟨p.senders ++ createExportedSenders p.nextHandle (n - p.senders.length),
        ⟨p.senders ++ createExportedSenders p.nextHandle (n - p.senders.length),
          p.nextHandle + (n - p.senders.length)⟩,
        by simp [borrowExportedSenders, hn1, hn10, he, hshort], ?_, ?_⟩
      · simp only [List.length_append, createExportedSenders, List.length_map,
          List.length_range]
        omega
      · refine List.Nodup.append hnd
          (createExportedSenders_nodup p.nextHandle (n - p.senders.length))
          (fun a ha hb => ?_)
        have h1 := hlt a ha
        have h2 := createExportedSenders_ge p.nextHandle (n - p.senders.length) a hb
        omega
    · refine ⟨p.senders.take n, p,
        by simp [borrowExportedSenders, hn1, hn10, he, hshort], ?_, ?_⟩
      · simp only [List.length_take]
        omega
      · exact (List.take_sublist n p.senders).nodup hnd

/-- C1 (witness): borrowing 3 senders from an empty pool yields 3 distinct
handles. -/
theorem borrowExportedSenders_returns_distinct_witness :
    ∃ l p2, borrowExportedSenders ⟨[], 0⟩ [3] = BorrowResult.ok l p2
      ∧ l.length = 3 ∧ l.Nodup :=
  borrowExportedSenders_returns_distinct ⟨[], 0⟩ 3 (by decide) (by decide)
    (by decide) (by decide)

/-- C2 (counterexample): the source tests `strings.Contains`, not a
prefix: an `RpcError` whose message merely contains `FLOOD_WAIT_` (here
"PREFLOOD_WAIT_3", which does not start with `FLOOD_WAIT_`) is slept on
and retried to success instead of being returned to the caller as an
error. -/
theorem makeRequest_floodwait_counterexample :
    strStartsWith "PREFLOOD_WAIT_3" "FLOOD_WAIT_" = false
    ∧ (makeRequest [Step.reply (RpcResp.rpcError "PREFLOOD_WAIT_3" 3),
        Step.reply (RpcResp.ok 7)] 0).result = MOutcome.success 7
    ∧ (makeRequest [Step.reply (RpcResp.rpcError "PREFLOOD_WAIT_3" 3),
        Step.reply (RpcResp.ok 7)] 0).sleeps = [3] := by decide

/-- C2 (amended): an `RpcError` whose message CONTAINS `FLOOD_WAIT_`
(substring, not prefix) makes `makeRequest` sleep the advertised seconds
and retry the same logical request with a fresh msg id; an `RpcError`
whose message does not contain it is surfaced to the caller as an error. -/
theorem makeRequest_floodwait_retry :
    ∀ (m : String) (secs : Nat) (rest : List Step) (msgId : Nat),
    (floodWait m = true →
      (makeRequest (Step.reply (RpcResp.rpcError m secs) :: rest) msgId).result
        = (makeRequest rest (msgId + 1)).result
      ∧ (makeRequest (Step.reply (RpcResp.rpcError m secs) :: rest) msgId).sleeps
        = secs :: (makeRequest rest (msgId + 1)).sleeps
      ∧ (makeRequest (Step.reply (RpcResp.rpcError m secs) :: rest) msgId).attempted
        = msgId :: (makeRequest rest (msgId + 1)).attempted)
    ∧ (floodWait m = false →
      (makeRequest (Step.reply (RpcResp.rpcError m secs) :: rest) msgId).result
        = MOutcome.failure (ReqErr.rpc m)) := by
  intro m secs rest msgId
  constructor
  · intro h
    refine ⟨?_, ?_, ?_⟩ <;> simp [makeRequest, h]
  · intro h
    simp [makeRequest, h]

/-- C2 (witness): a floodwait message is slept on and retried; a
non-floodwait error message is surfaced. -/
theorem makeRequest_floodwait_retry_witness :
    (makeRequest [Step.reply (RpcResp.rpcError "FLOOD_WAIT_3" 3),
        Step.reply (RpcResp.ok 7)] 0).sleeps
      = 3 :: (makeRequest [Step.reply (RpcResp.ok 7)] 1).sleeps
    ∧ (makeRequest [Step.reply (RpcResp.rpcError "SESSION_REVOKED" 0),
        Step.reply (RpcResp.ok 7)] 0).result
      = MOutcome.failure (ReqErr.rpc "SESSION_REVOKED") :=
  ⟨((makeRequest_floodwait_retry "FLOOD_WAIT_3" 3 [Step.reply (RpcResp.ok 7)] 0).1
      (by decide)).2.1,
   (makeRequest_floodwait_retry "SESSION_REVOKED" 0 [Step.reply (RpcResp.ok 7)] 0).2
      (by decide)⟩

/-- C3: when the first write fails with a broken-pipe error and the
reconnect succeeds, `makeRequest` triggers exactly one reconnect, retries
exactly once with the next msg id, and the request reaches the wire
exactly once (the single delivered msg id), returning the server's one
response. -/
theorem makeRequest_brokenPipe_single_retry :
    ∀ (msg : String) (v msgId : Nat),
    brokenPipe msg = true →
    makeRequest [Step.sendFail msg true, Step.reply (RpcResp.ok v)] msgId
      = ⟨MOutcome.success v, 1, [], [msgId, msgId + 1], [msgId + 1]⟩ := by
  intro msg v msgId h
  simp [makeRequest, h]

/-- C3 (witness): a concrete broken-pipe failure followed by a successful
resend delivers the request exactly once after exactly one reconnect. -/
theorem makeRequest_brokenPipe_single_retry_witness :
    makeRequest [Step.sendFail "write: use of closed network connection" true,
        Step.reply (RpcResp.ok 7)] 0
      = ⟨MOutcome.success 7, 1, [], [0, 1], [1]⟩ :=
  makeRequest_brokenPipe_single_retry "write: use of closed network connection" 7 0
    (by decide)

/-- C4: processing `BadServerSalt` sets `serverSalt` to the new salt,
persists it unless the session is memory-only, triggers one reconnect, and
delivers the session-configs-changed sentinel to every then-pending
response channel exactly once; a request that receives the sentinel is
then retried with a fresh msg id. -/
theorem processBadServerSalt_broadcast :
    ∀ (st : SaltState) (ns : Int) (k v msgId : Nat),
    st.pendingKeys.Nodup →
    ∃ st2 dels, processBadServerSalt st ns none = SaltOutcome.ok st2 dels
      ∧ st2.serverSalt = ns
      ∧ (st.memorySession = false → st2.persistedSalt = some ns)
      ∧ (st.memorySession = true → st2.persistedSalt = st.persistedSalt)
      ∧ st2.reconnects = st.reconnects + 1
      ∧ dels = st.pendingKeys
      ∧ (k ∈ st.pendingKeys → dels.count k = 1)
      ∧ (k ∉ st.pendingKeys → dels.count k = 0)
      ∧ (makeRequest [Step.reply RpcResp.sessionConfigsChanged,
            Step.reply (RpcResp.ok v)] msgId).result = MOutcome.success v
      ∧ (makeRequest [Step.reply RpcResp.sessionConfigsChanged,
            Step.reply (RpcResp.ok v)] msgId).attempted = [msgId, msgId + 1] := by
  intro st ns k v msgId hnd
  by_cases hm : st.memorySession
  · refine ⟨⟨ns, st.memorySession, st.persistedSalt, st.reconnects + 1, st.pendingKeys⟩,
      st.pendingKeys, by simp [processBadServerSalt, hm], rfl, ?_, ?_, rfl, rfl, ?_, ?_, ?_, ?_⟩
    · intro h; rw [hm] at h; exact absurd h (by simp)
    · intro _; rfl
    · intro hk; exact List.count_eq_one_of_mem hnd hk
    · intro hk; exact List.count_eq_zero_of_not_mem hk
    · simp [makeRequest]
    · simp [makeRequest]
  · refine ⟨⟨ns, st.memorySession, some ns, st.reconnects + 1, st.pendingKeys⟩,
      st.pendingKeys, by simp [processBadServerSalt, hm], rfl, ?_, ?_, rfl, rfl, ?_, ?_, ?_, ?_⟩
    · intro _; rfl
    · intro h; exact absurd h hm
    · intro hk; exact List.count_eq_one_of_mem hnd hk
    · intro hk; exact List.count_eq_zero_of_not_mem hk
    · simp [makeRequest]
    · simp [makeRequest]

/-- C4 (witness): a concrete BadServerSalt with two pending mailboxes. -/
theorem processBadServerSalt_broadcast_witness :
    ∃ st2 dels,
      processBadServerSalt ⟨0, false, none, 0, [10, 20]⟩ 7 none = SaltOutcome.ok st2 dels
      ∧ st2.serverSalt = 7
      ∧ (false = false → st2.persistedSalt = some 7)
      ∧ (false = true → st2.persistedSalt = none)
      ∧ st2.reconnects = 0 + 1
      ∧ dels = [10, 20]
      ∧ (10 ∈ [10, 20] → dels.count 10 = 1)
      ∧ (10 ∉ [10, 20] → dels.count 10 = 0)
      ∧ (makeRequest [Step.reply RpcResp.sessionConfigsChanged,
            Step.reply (RpcResp.ok 3)] 0).result = MOutcome.success 3
      ∧ (makeRequest [Step.reply RpcResp.sessionConfigsChanged,
            Step.reply (RpcResp.ok 3)] 0).attempted = [0, 0 + 1] :=
  processBadServerSalt_broadcast ⟨0, false, none, 0, [10, 20]⟩ 7 10 3 0 (by decide)

/-- C5 (code bug): `readMsg` wraps a `transport.ErrCode` into
`*ErrResponseCode`, so the `err.(transport.ErrCode)` type assertion in
`startReadingResponses` can never succeed and `makeAuthKey` is never run —
not even for code 4294966892 (-404) — although the branch testing exactly
that code exists in the source; for every error surfaced by `readMsg` the
handshake branch is unreachable. -/
theorem startReadingResponses_handshakeBranch_unreachable :
    runsMakeAuthKey (readMsgTranslateErr (LoopErr.transportErrCode 4294966892)) = false
    ∧ runsMakeAuthKey (LoopErr.transportErrCode 4294966892) = true
    ∧ readMsgTranslateErr (LoopErr.transportErrCode 4294966892)
        = LoopErr.errResponseCode 4294966892
    ∧ (∀ e : LoopErr, runsMakeAuthKey (readMsgTranslateErr e) = false) := by
  refine ⟨by decide, by decide, by decide, ?_⟩
  intro e
  cases e <;> simp [readMsgTranslateErr, runsMakeAuthKey, asTransportErrCode]

/-- C6: while service mode is active, `readMsg` never hands an inbound
message to `processResponse`; every successfully decoded object goes to
the service channel consumed by the handshake driver. -/
theorem readMsgRoute_serviceMode :
    ∀ (raw : Nat) (decoded : Option Nat),
    (∀ x, readMsgRoute true raw decoded ≠ RouteTarget.toProcessResponse x)
    ∧ (∀ o, decoded = some o →
        readMsgRoute true raw decoded = RouteTarget.toServiceChannel o) := by
  intro raw decoded
  constructor
  · intro x
    cases decoded <;> simp [readMsgRoute]
  · intro o h
    subst h
    simp [readMsgRoute]

/-- C6 (witness): a concrete decoded object in service mode goes to the
service channel and not to `processResponse`. -/
theorem readMsgRoute_serviceMode_witness :
    (readMsgRoute true 5 (some 9) ≠ RouteTarget.toProcessResponse 5)
    ∧ readMsgRoute true 5 (some 9) = RouteTarget.toServiceChannel 9 :=
  ⟨(readMsgRoute_serviceMode 5 (some 9)).1 5,
   (readMsgRoute_serviceMode 5 (some 9)).2 9 rfl⟩

/-- C7 (counterexample): exporting a session whose salt is 5 and importing
the resulting string into a fresh client does not reconstruct the session:
the string encoding carries no salt, so the imported state keeps salt 0. -/
theorem importAuth_export_salt_counterexample :
    sessionOfAuth (importAuth ⟨[], [], [], 0, 0⟩
        (exportSession (authOfSession ⟨[9], [8], 5, [104], 7⟩) 4) false none).1
      ≠ (⟨[9], [8], 5, [104], 7⟩ : FullSession) := by decide

/-- C7 (amended): the string-session codec round-trips on the record it
carries (key, hash, dc, hostname, app id), and importing the export of a
session reconstructs its key, hash, hostname and app id, reporting
success; the dc id is encoded but discarded on import, and the salt is not
carried (the importing client's salt is left unchanged). -/
theorem importAuth_exportSession_roundtrip :
    (∀ r : StringSessionRec, stringSessionDecode (stringSessionEncode r) = some r)
    ∧ (∀ (S : FullSession) (m0 : AuthFields) (dc : Nat) (mem : Bool),
      (importAuth m0 (exportSession (authOfSession S) dc) mem none).2.1 = true
      ∧ (importAuth m0 (exportSession (authOfSession S) dc) mem none).1.authKey = S.key
      ∧ (importAuth m0 (exportSession (authOfSession S) dc) mem none).1.authKeyHash = S.hash
      ∧ (importAuth m0 (exportSession (authOfSession S) dc) mem none).1.addr = S.hostname
      ∧ (importAuth m0 (exportSession (authOfSession S) dc) mem none).1.appID = S.appID
      ∧ (importAuth m0 (exportSession (authOfSession S) dc) mem none).1.serverSalt
          = m0.serverSalt) := by
  constructor
  · exact stringSessionDecode_encode
  · intro S m0 dc mem
    have h := stringSessionDecode_encode ⟨S.key, S.hash, dc, S.hostname, S.appID⟩
    cases mem <;> simp [importAuth, exportSession, authOfSession, h]

/-- C8: the acknowledgement step of `processResponse` sends a `MsgsAck`
carrying exactly the inbound message's msg id precisely when its seq no is
odd, and never blocks waiting for a response to the acknowledgement. -/
theorem processResponse_ack_oddSeqNo :
    ∀ (seqNo msgId : Nat),
    (seqNo % 2 = 1 → processResponseAckStep seqNo msgId = ⟨[[msgId]], false⟩)
    ∧ (seqNo % 2 = 0 → processResponseAckStep seqNo msgId = ⟨[], false⟩)
    ∧ (processResponseAckStep seqNo msgId).awaitedResponse = false := by
  intro s i
  have hmod : s &&& 1 = s % 2 := Nat.and_one_is_mod s
  refine ⟨?_, ?_, ?_⟩
  · intro h
    simp [processResponseAckStep, sendOnewayAck, hmod, h]
  · intro h
    simp [processResponseAckStep, hmod, h]
  · rcases Nat.mod_two_eq_zero_or_one s with h | h <;>
      simp [processResponseAckStep, sendOnewayAck, hmod, h]

/-- C8 (witness): a message with odd seq no 3 is acknowledged with exactly
its msg id and without blocking; seq no 4 produces no acknowledgement. -/
theorem processResponse_ack_oddSeqNo_witness :
    processResponseAckStep 3 42 = ⟨[[42]], false⟩
    ∧ processResponseAckStep 4 42 = ⟨[], false⟩ :=
  ⟨(processResponse_ack_oddSeqNo 3 42).1 (by decide),
   (processResponse_ack_oddSeqNo 4 42).2.1 (by decide)⟩

/-- C9: `Terminate` closes the response-channel registry, so awaiting
callers observe a terminated error, while `Disconnect` leaves the pending
mailboxes exactly as they were (open stays open); both clear the connected
flag and cancel the background routines. -/
theorem terminate_disconnect_mailboxes :
    ∀ s : ConnState,
    (terminate s).mailboxesClosed = true
    ∧ awaitPending (terminate s) = MailboxRead.terminatedError
    ∧ (disconnect s).mailboxesClosed = s.mailboxesClosed
    ∧ awaitPending (disconnect s) = awaitPending s
    ∧ (terminate s).isConnected = false
    ∧ (disconnect s).isConnected = false
    ∧ (terminate s).routinesActive = false
    ∧ (disconnect s).routinesActive = false := by
  intro s
  refine ⟨rfl, ?_, rfl, rfl, rfl, rfl, rfl, rfl⟩
  simp [awaitPending, terminate]

/-- C10: `ImportRawAuth` returns `(err != nil, err)` — the boolean is true
exactly when the internal reconnect fails, so a successful raw import
yields `false`; `ImportAuth`, in contrast, returns `true` on a successful
import. -/
theorem importRawAuth_return_convention :
    (∀ (m : AuthFields) (key hash addr : List Nat) (appID : Nat) (r : Option String),
      ((importRawAuth m key hash addr appID r).2.1 = true ↔ r ≠ none)
      ∧ (importRawAuth m key hash addr appID r).2.2 = r)
    ∧ (∀ (m : AuthFields) (key hash addr : List Nat) (appID : Nat),
      (importRawAuth m key hash addr appID none).2.1 = false)
    ∧ (∀ (m : AuthFields) (r : StringSessionRec) (mem : Bool),
      (importAuth m (stringSessionEncode r) mem none).2.1 = true) := by
  refine ⟨?_, ?_, ?_⟩
  · intro m key hash addr appID r
    cases r <;> simp [importRawAuth]
  · intro m key hash addr appID
    simp [importRawAuth]
  · intro m r mem
    have h := stringSessionDecode_encode r
    cases mem <;> simp [importAuth, h]
